import Mathlib

/-!
Shallow embedding of `agent.py` from the superset-ollama-mcp repository:
the `SupersetAgent` class with its bounded tool-calling loop (`chat`) and
string-keyed dispatch (`_execute_tool`), together with theorems settling the
specification claims about them.

Modelling conventions:
* Python dict-shaped JSON values are the inductive `JsonVal` (mutually with
  `JsonFields`/`JsonList` so that the serializer is structurally recursive).
  `JsonVal.other` stands for a Python object that `json.dumps` cannot encode
  natively and that `default=str` coerces to its string form.
* The six collaborator operations imported from `main.py` are abstract
  fields of a `Collab` record; each either returns a value (`Except.ok`) or
  raises (`Except.error msg`, carrying `str(e)`).
* The Ollama client's `chat` endpoint is an abstract function `LM` from the
  message history and the tool-schema list to `Except String Message`
  (`Except.error` models a raised transport exception).
* The loop is embedded as a fuel-indexed recursion (`chatLoop`) that also
  records a trace of the externally observable events (model calls with the
  exact arguments passed, and tool dispatches in order).
-/

/-- Message roles occurring in the conversation history. -/
inductive Role where
  | system
  | user
  | assistant
  | tool
deriving DecidableEq, Repr

mutual
/-- A JSON-like value as handled by `json.dumps(_, default=str)`. -/
inductive JsonVal where
  | str (s : String)
  | num (n : Int)
  | bool (b : Bool)
  | null
  | arr (xs : JsonList)
  | obj (fs : JsonFields)
  | other (s : String)
deriving DecidableEq, Repr

/-- The elements of a JSON array. -/
inductive JsonList where
  | nil
  | cons (hd : JsonVal) (tl : JsonList)
deriving DecidableEq, Repr

/-- The key/value fields of a JSON object. -/
inductive JsonFields where
  | nil
  | cons (k : String) (v : JsonVal) (tl : JsonFields)
deriving DecidableEq, Repr
end

/-- The argument mapping of a tool call (`tool_call['function']['arguments']`). -/
abbrev ArgMap := List (String × JsonVal)

/-- Escape one character for a JSON string literal. -/
def escapeChar (ch : Char) : String :=
  if ch = '"' then "\\\""
  else if ch = '\\' then "\\\\"
  else if ch = '\n' then "\\n"
  else String.singleton ch

/-- Escape the body of a JSON string literal. -/
def escapeString (s : String) : String :=
  String.join (s.toList.map escapeChar)

/-- Serialize a string as a JSON string literal. -/
def dumpString (s : String) : String :=
  "\"" ++ escapeString s ++ "\""

mutual
/-- `json.dumps(v, default=str)`: serialize a value to text; a value outside
the JSON fragment (`JsonVal.other`) is coerced to its string form. -/
def dumps : JsonVal → String
  | JsonVal.str s => dumpString s
  | JsonVal.num n => toString n
  | JsonVal.bool b => if b then "true" else "false"
  | JsonVal.null => "null"
  | JsonVal.arr xs => "[" ++ dumpsList xs ++ "]"
  | JsonVal.obj fs => "\x7b" ++ dumpsFields fs ++ "\x7d"
  | JsonVal.other s => dumpString s

/-- Serialize the comma-separated elements of a JSON array. -/
def dumpsList : JsonList → String
  | JsonList.nil => ""
  | JsonList.cons x JsonList.nil => dumps x
  | JsonList.cons x tl => dumps x ++ ", " ++ dumpsList tl

/-- Serialize the comma-separated fields of a JSON object. -/
def dumpsFields : JsonFields → String
  | JsonFields.nil => ""
  | JsonFields.cons k v JsonFields.nil => dumpString k ++ ": " ++ dumps v
  | JsonFields.cons k v tl => dumpString k ++ ": " ++ dumps v ++ ", " ++ dumpsFields tl
end

/-- One tool invocation request emitted by the model
(`tool_call['function']`). -/
structure ToolCall where
  name : String
  arguments : ArgMap
deriving DecidableEq, Repr

/-- One message of the conversation history.  A model message with no
`tool_calls` key is represented with `tool_calls = []`, matching the falsiness
test `if not tool_calls` in the source. -/
structure Message where
  role : Role
  content : String
  name : Option String := none
  tool_calls : List ToolCall := []
deriving DecidableEq, Repr

/-- One property entry of a tool schema's JSON-schema `parameters` object. -/
structure ParamSpec where
  pname : String
  ptype : String
  pdescription : String
  penum : List String := []
deriving DecidableEq, Repr

/-- One entry of the `tools` list handed to the Ollama client
(`{"type": "function", "function": {...}}`). -/
structure ToolSchema where
  ttype : String := "function"
  name : String
  description : String
  properties : List ParamSpec := []
  required : List String := []
deriving DecidableEq, Repr

/-- The static `tools` list built at the top of `SupersetAgent.chat`
(agent.py lines 53-132), in source order. -/
def toolsList : List ToolSchema :=
  [ { name := "superset_database_list",
      description := "List all databases available in Superset" },
    { name := "superset_database_get_tables",
      description := "List tables in a specific database",
      properties :=
        [ { pname := "database_id", ptype := "integer",
            pdescription := "The ID of the database" },
          { pname := "schema_name", ptype := "string",
            pdescription := "The schema name (optional but recommended for Trino)" } ],
      required := ["database_id"] },
    { name := "superset_database_schemas",
      description := "List schemas in a specific database",
      properties :=
        [ { pname := "database_id", ptype := "integer",
            pdescription := "The ID of the database" } ],
      required := ["database_id"] },
    { name := "superset_sqllab_execute_query",
      description := "Execute a SQL query against a database",
      properties :=
        [ { pname := "database_id", ptype := "integer",
            pdescription := "The ID of the database" },
          { pname := "sql", ptype := "string",
            pdescription := "The SQL query to execute" } ],
      required := ["database_id", "sql"] },
    { name := "superset_chart_create",
      description := "Create a new chart in Superset",
      properties :=
        [ { pname := "slice_name", ptype := "string",
            pdescription := "Name of the chart" },
          { pname := "datasource_id", ptype := "integer",
            pdescription := "ID of the datasource (table or saved query)" },
          { pname := "datasource_type", ptype := "string",
            pdescription := "Type of datasource", penum := ["table", "query"] },
          { pname := "viz_type", ptype := "string",
            pdescription := "Type of visualization (e.g., echarts_timeseries_bar)" },
          { pname := "params", ptype := "object",
            pdescription := "Chart configuration parameters" } ],
      required := ["slice_name", "datasource_id", "datasource_type", "viz_type", "params"] },
    { name := "superset_dataset_list",
      description := "List available datasets" } ]

/-- The module-level `SYSTEM_PROMPT` string of agent.py. -/
def SYSTEM_PROMPT : String :=
  "You are a Superset Data Analyst Agent. Your goal is to help users visualize data.\n" ++
  "You have access to a Superset instance with Trino/Database connections.\n" ++
  "\n" ++
  "Follow this process:\n" ++
  "1. Understand the User\x27s Request.\n" ++
  "2. INTERSPECT Data: Use \x60superset_database_list\x60 to find databases.\n" ++
  "   - For Trino/Presto, ALWAYS check schemas using \x60superset_database_schemas(database_id)\x60 first.\n" ++
  "   - Then use \x60superset_database_get_tables(database_id, schema_name=...)\x60 with the relevant schema.\n" ++
  "3. QUERY Data (Optional but recommended): Use \x60superset_sqllab_execute_query\x60 to preview data or verify assumptions.\n" ++
  "4. VISUALIZE: Use \x60superset_chart_create\x60 to create a chart.\n" ++
  "   - Choose an appropriate \x60viz_type\x60 (e.g., \x27table\x27, \x27big_number\x27, \x27echarts_timeseries_line\x27, \x27echarts_timeseries_bar\x27, \x27pie\x27).\n" ++
  "   - \x60datasource_type\x60 should be \x27table\x27 (if using a dataset) or \x27query\x27 (if creating from SQL).\n" ++
  "   - Construct the \x60params\x60 JSON carefully based on the chart type.\n" ++
  "5. FINAL ANSWER: Return the URL of the created chart or dashboard.\n" ++
  "\n" ++
  "Tools available:\n" ++
  "- \x60superset_database_list\x60: List available databases.\n" ++
  "- \x60superset_database_get_tables(database_id)\x60: List tables in a database.\n" ++
  "- \x60superset_sqllab_execute_query(database_id, sql)\x60: Execute SQL.\n" ++
  "- \x60superset_chart_create(slice_name, datasource_id, datasource_type, viz_type, params)\x60: Create a chart.\n" ++
  "- \x60superset_dataset_list()\x60: List available datasets.\n" ++
  "\n" ++
  "Response Format:\n" ++
  "You must STRICTLY use the provided tools.\n" ++
  "If you need more information, ask the user.\n"

/-- The system message installed by `SupersetAgent.__init__`. -/
def systemMessage : Message :=
  { role := Role.system, content := SYSTEM_PROMPT }

/-- The user message appended at the top of `chat`. -/
def userMsg (query : String) : Message :=
  { role := Role.user, content := query }

/-- The six collaborator operations imported from `main.py` inside
`_execute_tool`.  `superset_database_list` and `superset_dataset_list` are
invoked with no arguments beyond the context; the other four receive the
keyword-argument mapping.  `Except.error msg` models the call raising an
exception whose `str` is `msg`. -/
structure Collab where
  superset_database_list : Except String JsonVal
  superset_database_schemas : ArgMap → Except String JsonVal
  superset_database_get_tables : ArgMap → Except String JsonVal
  superset_sqllab_execute_query : ArgMap → Except String JsonVal
  superset_chart_create : ArgMap → Except String JsonVal
  superset_dataset_list : Except String JsonVal

/-- The operation names recognized by `_execute_tool`'s if/elif chain, in
chain order. -/
def registryNames : List String :=
  [ "superset_database_list",
    "superset_database_schemas",
    "superset_database_get_tables",
    "superset_sqllab_execute_query",
    "superset_chart_create",
    "superset_dataset_list" ]

/-- The JSON payload `{"error": msg}`. -/
def errObj (msg : String) : JsonVal :=
  JsonVal.obj (JsonFields.cons "error" (JsonVal.str msg) JsonFields.nil)

/-- The body of the `try` block of `_execute_tool` (agent.py lines 196-209):
the if/elif chain over the operation name.  An unknown name returns the
`Unknown tool` payload without raising (`Except.ok`); a raised exception
from a collaborator call is `Except.error`. -/
def collabResult (c : Collab) (name : String) (args : ArgMap) : Except String JsonVal :=
  if name = "superset_database_list" then c.superset_database_list
  else if name = "superset_database_schemas" then c.superset_database_schemas args
  else if name = "superset_database_get_tables" then c.superset_database_get_tables args
  else if name = "superset_sqllab_execute_query" then c.superset_sqllab_execute_query args
  else if name = "superset_chart_create" then c.superset_chart_create args
  else if name = "superset_dataset_list" then c.superset_dataset_list
  else Except.ok (errObj ("Unknown tool: " ++ name))

/-- `SupersetAgent._execute_tool` (agent.py lines 173-212): run the dispatch
chain under the `try`/`except` that converts a raised exception into the
payload `{"error": str(e)}`.  The function is total: no exception escapes to
the caller. -/
def executeTool (c : Collab) (name : String) (args : ArgMap) : JsonVal :=
  match collabResult c name args with
  | Except.ok v => v
  | Except.error e => errObj e

/-- An externally observable event of one `chat` run: a call to the Ollama
client (recording exactly the history and tool-schema list passed), or one
tool dispatch. -/
inductive Event where
  | modelCall (history : List Message) (tools : List ToolSchema)
  | dispatch (name : String) (args : ArgMap)
deriving DecidableEq, Repr

/-- The Ollama client's `chat` endpoint: from the message history and the
tool-schema list to either a response message or a raised transport
exception (`Except.error msg`). -/
abbrev LM := List Message → List ToolSchema → Except String Message

/-- The tool-role message appended to the history after one dispatch
(agent.py lines 165-169): the result serialized with
`json.dumps(_, default=str)` and tagged with the operation name. -/
def toolMessage (name : String) (result : JsonVal) : Message :=
  { role := Role.tool, content := dumps result, name := some name }

/-- The tool-role messages produced by the `for tool_call in tool_calls`
loop of one round, in the order the model listed the calls. -/
def dispatchMessages (c : Collab) (calls : List ToolCall) : List Message :=
  calls.map (fun tc => toolMessage tc.name (executeTool c tc.name tc.arguments))

/-- The dispatch events of one round, in the order the model listed the
calls. -/
def dispatchEvents (calls : List ToolCall) : List Event :=
  calls.map (fun tc => Event.dispatch tc.name tc.arguments)

/-- The sentinel returned when the round budget is exhausted
(agent.py line 171). -/
def sentinel : String := "Agent loop limit reached without final answer."

/-- The `for _ in range(5)` agent loop of `SupersetAgent.chat`
(agent.py lines 137-171), indexed by the remaining rounds (`fuel`, initially
5) and accumulating the history and the event trace.  Each round calls the
model; a raised transport exception returns the error text immediately; a
response without tool calls returns its content; otherwise every requested
call is dispatched sequentially and its serialized result appended as a
tool-role message before the next round. -/
def chatLoop (lm : LM) (c : Collab) :
    Nat → List Message → List Event → String × List Message × List Event
  | 0, hist, tr => (sentinel, hist, tr)
  | fuel + 1, hist, tr =>
    match lm hist toolsList with
    | Except.error e =>
        ("Error communicating with Ollama: " ++ e, hist,
          tr ++ [Event.modelCall hist toolsList])
    | Except.ok m =>
        if m.tool_calls.isEmpty then
          (m.content, hist ++ [m], tr ++ [Event.modelCall hist toolsList])
        else
          chatLoop lm c fuel
            (hist ++ m :: dispatchMessages c m.tool_calls)
            (tr ++ Event.modelCall hist toolsList :: dispatchEvents m.tool_calls)

/-- The state of a `SupersetAgent` instance: its conversation history.
The Ollama client and the MCP context are the abstract collaborators `LM`
and `Collab`, threaded through `chat` explicitly. -/
structure SupersetAgent where
  history : List Message
deriving DecidableEq, Repr

namespace SupersetAgent

/-- `SupersetAgent.__init__`: the history starts as the single system-prompt
message. -/
def init : SupersetAgent :=
  { history := [systemMessage] }

/-- `SupersetAgent.chat`: append the query as a user message, run the loop
for at most 5 rounds, and return the final answer together with the updated
instance and the event trace of the run. -/
def chat (a : SupersetAgent) (lm : LM) (c : Collab) (query : String) :
    String × SupersetAgent × List Event :=
  let r := chatLoop lm c 5 (a.history ++ [userMsg query]) []
  (r.1, { history := r.2.1 }, r.2.2)

end SupersetAgent

/-- Python call semantics for unpacking a keyword-argument mapping into a
function that declares no keyword parameters: an empty mapping passes,
anything else raises a `TypeError` about the unexpected keyword. -/
def callNoArgs (fname : String) (f : Except String JsonVal) (args : ArgMap) :
    Except String JsonVal :=
  match args with
  | [] => f
  | (k, _) :: _ =>
      Except.error (fname ++ "() got an unexpected keyword argument \x27" ++ k ++ "\x27")

/-- Modelled from the spec: the dispatch behavior described in section 4.2
("invokes the corresponding external collaborator call with the arguments
unpacked as keyword parameters").  The collaborator signatures live in
`main.py`, which is not among the source files; per the spec's interface
table (section 6) the list-databases and list-datasets operations take no
arguments, so unpacking a non-empty mapping into them raises, which the
`except` layer converts to an error payload. -/
def executeToolSpec (c : Collab) (name : String) (args : ArgMap) : JsonVal :=
  let r : Except String JsonVal :=
    if name = "superset_database_list" then
      callNoArgs "superset_database_list" c.superset_database_list args
    else if name = "superset_database_schemas" then c.superset_database_schemas args
    else if name = "superset_database_get_tables" then c.superset_database_get_tables args
    else if name = "superset_sqllab_execute_query" then c.superset_sqllab_execute_query args
    else if name = "superset_chart_create" then c.superset_chart_create args
    else if name = "superset_dataset_list" then
      callNoArgs "superset_dataset_list" c.superset_dataset_list args
    else Except.ok (errObj ("Unknown tool: " ++ name))
  match r with
  | Except.ok v => v
  | Except.error e => errObj e

/-- A collaborator record whose every operation succeeds with the marker
value `"ok"`; used to witness that each registered name actually reaches a
collaborator call. -/
def okCollab : Collab :=
  { superset_database_list := Except.ok (JsonVal.str "ok"),
    superset_database_schemas := fun _ => Except.ok (JsonVal.str "ok"),
    superset_database_get_tables := fun _ => Except.ok (JsonVal.str "ok"),
    superset_sqllab_execute_query := fun _ => Except.ok (JsonVal.str "ok"),
    superset_chart_create := fun _ => Except.ok (JsonVal.str "ok"),
    superset_dataset_list := Except.ok (JsonVal.str "ok") }

/-- A collaborator record whose every operation raises with message `msg`. -/
def raisingCollab (msg : String) : Collab :=
  { superset_database_list := Except.error msg,
    superset_database_schemas := fun _ => Except.error msg,
    superset_database_get_tables := fun _ => Except.error msg,
    superset_sqllab_execute_query := fun _ => Except.error msg,
    superset_chart_create := fun _ => Except.error msg,
    superset_dataset_list := Except.error msg }

/-- The number of assistant messages in a history; a scripted model uses it
as the index of the next scripted response. -/
def assistantCount (hist : List Message) : Nat :=
  (hist.filter (fun m => m.role = Role.assistant)).length

/-- A model that answers round `i` with entry `i` of a fixed script and
raises once the script is exhausted. -/
def scriptedLM (script : List Message) : LM :=
  fun hist _ =>
    match script[assistantCount hist]? with
    | some m => Except.ok m
    | none => Except.error "script exhausted"

/-- The messages one round appends to the history: the assistant message
followed by one tool-role message per requested call, in call order. -/
def roundBlock (c : Collab) (m : Message) : List Message :=
  m :: dispatchMessages c m.tool_calls

/-- The events of the rounds driven by a script, given the history at the
start of the first of those rounds. -/
def scriptEvents (c : Collab) : List Message → List Message → List Event
  | _, [] => []
  | hist, m :: rest =>
      (Event.modelCall hist toolsList :: dispatchEvents m.tool_calls) ++
        scriptEvents c (hist ++ roundBlock c m) rest

/-- The number of model calls recorded in a trace. -/
def countModelCalls (tr : List Event) : Nat :=
  (tr.filter (fun e => match e with | Event.modelCall _ _ => true | _ => false)).length

/-! ### Concrete model functions and messages for the witnesses -/

/-- A model that requests one `superset_database_list` call on every round. -/
def alwaysToolLM : LM := fun _ _ =>
  Except.ok
    { role := Role.assistant, content := "",
      tool_calls := [{ name := "superset_database_list", arguments := [] }] }

/-- A model that immediately answers in plain text. -/
def plainLM : LM := fun _ _ =>
  Except.ok { role := Role.assistant, content := "Found 1 database: examples" }

/-- A model whose chat call always raises. -/
def failLM : LM := fun _ _ => Except.error "connection refused"

/-- An assistant message requesting one `superset_database_schemas` call. -/
def schemaCallMsg : Message :=
  { role := Role.assistant, content := "",
    tool_calls :=
      [{ name := "superset_database_schemas",
         arguments := [("database_id", JsonVal.num 1)] }] }

/-- A model that requests one `superset_database_schemas` call on every
round. -/
def schemaCallLM : LM := fun _ _ => Except.ok schemaCallMsg

/-! ### Helper lemmas -/

lemma countModelCalls_append (a b : List Event) :
    countModelCalls (a ++ b) = countModelCalls a + countModelCalls b := by
  simp [countModelCalls, List.filter_append]

lemma countModelCalls_dispatchEvents (calls : List ToolCall) :
    countModelCalls (dispatchEvents calls) = 0 := by
  induction calls with
  | nil => rfl
  | cons tc rest ih => simp [dispatchEvents, countModelCalls]

lemma mem_dispatchEvents (e : Event) (calls : List ToolCall)
    (h : e ∈ dispatchEvents calls) : ∃ n a, e = Event.dispatch n a := by
  simp only [dispatchEvents, List.mem_map] at h
  obtain ⟨tc, _, rfl⟩ := h
  exact ⟨tc.name, tc.arguments, rfl⟩

lemma isEmpty_false_of_ne_nil {α : Type} {l : List α} (h : l ≠ []) :
    l.isEmpty = false := by
  cases l with
  | nil => exact absurd rfl h
  | cons x xs => rfl

/-- Unfolding one round of the loop when the model raises. -/
lemma chatLoop_error (lm : LM) (c : Collab) (fuel : Nat) (hist : List Message)
    (tr : List Event) (e : String) (hm : lm hist toolsList = Except.error e) :
    chatLoop lm c (fuel + 1) hist tr =
      ("Error communicating with Ollama: " ++ e, hist,
        tr ++ [Event.modelCall hist toolsList]) := by
  simp only [chatLoop, hm]

/-- Unfolding one round of the loop when the model answers without tool
calls. -/
lemma chatLoop_plain (lm : LM) (c : Collab) (fuel : Nat) (hist : List Message)
    (tr : List Event) (m : Message) (hm : lm hist toolsList = Except.ok m)
    (hcalls : m.tool_calls = []) :
    chatLoop lm c (fuel + 1) hist tr =
      (m.content, hist ++ [m], tr ++ [Event.modelCall hist toolsList]) := by
  simp only [chatLoop, hm, hcalls, List.isEmpty_nil, if_true]

/-- Unfolding one round of the loop when the model requests tool calls. -/
lemma chatLoop_tools (lm : LM) (c : Collab) (fuel : Nat) (hist : List Message)
    (tr : List Event) (m : Message) (hm : lm hist toolsList = Except.ok m)
    (hcalls : m.tool_calls ≠ []) :
    chatLoop lm c (fuel + 1) hist tr =
      chatLoop lm c fuel (hist ++ m :: dispatchMessages c m.tool_calls)
        (tr ++ Event.modelCall hist toolsList :: dispatchEvents m.tool_calls) := by
  simp only [chatLoop, hm, isEmpty_false_of_ne_nil hcalls, Bool.false_eq_true, if_false]

/-- The loop only ever appends to the history and to the trace. -/
lemma chatLoop_extends (lm : LM) (c : Collab) :
    ∀ (fuel : Nat) (hist : List Message) (tr : List Event),
      ∃ ans he te, chatLoop lm c fuel hist tr = (ans, hist ++ he, tr ++ te) := by
  intro fuel
  induction fuel with
  | zero =>
      intro hist tr
      exact ⟨sentinel, [], [], by simp [chatLoop]⟩
  | succ f ih =>
      intro hist tr
      cases hm : lm hist toolsList with
      | error e =>
          exact ⟨"Error communicating with Ollama: " ++ e, [],
            [Event.modelCall hist toolsList], by rw [chatLoop_error lm c f hist tr e hm]; simp⟩
      | ok m =>
          by_cases hcalls : m.tool_calls = []
          · exact ⟨m.content, [m], [Event.modelCall hist toolsList],
              by rw [chatLoop_plain lm c f hist tr m hm hcalls]⟩
          · obtain ⟨ans, he, te, hrec⟩ :=
              ih (hist ++ m :: dispatchMessages c m.tool_calls)
                (tr ++ Event.modelCall hist toolsList :: dispatchEvents m.tool_calls)
            refine ⟨ans, (m :: dispatchMessages c m.tool_calls) ++ he,
              (Event.modelCall hist toolsList :: dispatchEvents m.tool_calls) ++ te, ?_⟩
            rw [chatLoop_tools lm c f hist tr m hm hcalls, hrec]
            simp

/-- The trace of a non-zero-fuel run starts with the model call on the
start history. -/
lemma chatLoop_first_event (lm : LM) (c : Collab) (fuel : Nat)
    (hist : List Message) (tr : List Event) :
    ∃ rest, (chatLoop lm c (fuel + 1) hist tr).2.2 =
      tr ++ Event.modelCall hist toolsList :: rest := by
  cases hm : lm hist toolsList with
  | error e => exact ⟨[], by rw [chatLoop_error lm c fuel hist tr e hm]⟩
  | ok m =>
      by_cases hcalls : m.tool_calls = []
      · exact ⟨[], by rw [chatLoop_plain lm c fuel hist tr m hm hcalls]⟩
      · obtain ⟨ans, he, te, hrec⟩ := chatLoop_extends lm c fuel
          (hist ++ m :: dispatchMessages c m.tool_calls)
          (tr ++ Event.modelCall hist toolsList :: dispatchEvents m.tool_calls)
        refine ⟨dispatchEvents m.tool_calls ++ te, ?_⟩
        rw [chatLoop_tools lm c fuel hist tr m hm hcalls, hrec]
        simp

/-- Under a model that always requests at least one tool call, the loop
spends all its fuel, returns the sentinel, and makes exactly one model call
per unit of fuel. -/
lemma chatLoop_exhausts (lm : LM) (c : Collab)
    (hlm : ∀ h, ∃ m, lm h toolsList = Except.ok m ∧ m.tool_calls ≠ []) :
    ∀ (fuel : Nat) (hist : List Message) (tr : List Event),
      ∃ hist2 tr2, chatLoop lm c fuel hist tr = (sentinel, hist2, tr2) ∧
        countModelCalls tr2 = countModelCalls tr + fuel := by
  intro fuel
  induction fuel with
  | zero =>
      intro hist tr
      exact ⟨hist, tr, by simp [chatLoop], by simp⟩
  | succ f ih =>
      intro hist tr
      obtain ⟨m, hm, hcalls⟩ := hlm hist
      obtain ⟨hist2, tr2, heq, hcount⟩ :=
        ih (hist ++ m :: dispatchMessages c m.tool_calls)
          (tr ++ Event.modelCall hist toolsList :: dispatchEvents m.tool_calls)
      refine ⟨hist2, tr2, ?_, ?_⟩
      · rw [chatLoop_tools lm c f hist tr m hm hcalls, heq]
      · rw [hcount, countModelCalls_append]
        have h1 : countModelCalls (Event.modelCall hist toolsList :: dispatchEvents m.tool_calls)
            = 1 := by
          show countModelCalls ([Event.modelCall hist toolsList] ++ dispatchEvents m.tool_calls) = 1
          rw [countModelCalls_append, countModelCalls_dispatchEvents]
          rfl
        rw [h1]
        omega

/-- Every model call recorded by the loop passes exactly the static tool
schema list. -/
lemma chatLoop_modelCall_tools (lm : LM) (c : Collab) :
    ∀ (fuel : Nat) (hist : List Message) (tr : List Event)
      (h : List Message) (t : List ToolSchema),
      Event.modelCall h t ∈ (chatLoop lm c fuel hist tr).2.2 →
      Event.modelCall h t ∈ tr ∨ t = toolsList := by
  intro fuel
  induction fuel with
  | zero =>
      intro hist tr h t hmem
      simp only [chatLoop] at hmem
      exact Or.inl hmem
  | succ f ih =>
      intro hist tr h t hmem
      cases hm : lm hist toolsList with
      | error e =>
          rw [chatLoop_error lm c f hist tr e hm] at hmem
          simp only [List.mem_append, List.mem_singleton, Event.modelCall.injEq] at hmem
          rcases hmem with hmem | ⟨_, rfl⟩
          · exact Or.inl hmem
          · exact Or.inr rfl
      | ok m =>
          by_cases hcalls : m.tool_calls = []
          · rw [chatLoop_plain lm c f hist tr m hm hcalls] at hmem
            simp only [List.mem_append, List.mem_singleton, Event.modelCall.injEq] at hmem
            rcases hmem with hmem | ⟨_, rfl⟩
            · exact Or.inl hmem
            · exact Or.inr rfl
          · rw [chatLoop_tools lm c f hist tr m hm hcalls] at hmem
            rcases ih _ _ h t hmem with hmem2 | rfl
            · rw [List.mem_append] at hmem2
              rcases hmem2 with hmem2 | hmem2
              · exact Or.inl hmem2
              · rw [List.mem_cons] at hmem2
                rcases hmem2 with heq | hmem2
                · injection heq with _ h2
                  exact Or.inr h2
                · obtain ⟨n, a, habs⟩ := mem_dispatchEvents _ _ hmem2
                  exact absurd habs (by simp)
            · exact Or.inr rfl

lemma assistantCount_append (a b : List Message) :
    assistantCount (a ++ b) = assistantCount a + assistantCount b := by
  simp [assistantCount, List.filter_append]

lemma assistantCount_dispatchMessages (c : Collab) (calls : List ToolCall) :
    assistantCount (dispatchMessages c calls) = 0 := by
  induction calls with
  | nil => rfl
  | cons tc rest ih => simp [dispatchMessages, assistantCount, toolMessage]

lemma assistantCount_roundBlock (c : Collab) (m : Message)
    (hrole : m.role = Role.assistant) :
    assistantCount (roundBlock c m) = 1 := by
  show assistantCount ([m] ++ dispatchMessages c m.tool_calls) = 1
  rw [assistantCount_append, assistantCount_dispatchMessages]
  simp [assistantCount, hrole]

/-- Running the loop on a scripted model: each scripted round appends its
round block to the history and its events to the trace, in order. -/
lemma chatLoop_scripted (full : List Message) (c : Collab) :
    ∀ (toServe rest : List Message) (k fuel : Nat)
      (hist : List Message) (tr : List Event),
      full.drop k = toServe ++ rest →
      assistantCount hist = k →
      toServe.length ≤ fuel →
      (∀ m ∈ toServe, m.role = Role.assistant ∧ m.tool_calls ≠ []) →
      chatLoop (scriptedLM full) c fuel hist tr =
        chatLoop (scriptedLM full) c (fuel - toServe.length)
          (hist ++ ((toServe.map (roundBlock c)).flatten))
          (tr ++ scriptEvents c hist toServe) := by
  intro toServe
  induction toServe with
  | nil =>
      intro rest k fuel hist tr _ _ _ _
      simp [scriptEvents]
  | cons m rest' ih =>
      intro rest k fuel hist tr hdrop hcount hlen hgood
      obtain ⟨hrole, hcalls⟩ := hgood m (List.mem_cons_self m rest')
      cases fuel with
      | zero => simp at hlen
      | succ f =>
          have hget : full[k]? = some m := by
            have h0 : (full.drop k)[0]? = full[k]? := by
              rw [List.getElem?_drop]
              simp
            rw [hdrop] at h0
            simpa using h0.symm
          have hm : scriptedLM full hist toolsList = Except.ok m := by
            simp [scriptedLM, hcount, hget]
          rw [chatLoop_tools (scriptedLM full) c f hist tr m hm hcalls]
          have hdrop2 : full.drop (k + 1) = rest' ++ rest := by
            have h1 : (full.drop k).drop 1 = full.drop (k + 1) := List.drop_drop 1 k full
            rw [hdrop] at h1
            simpa using h1.symm
          have hcount2 : assistantCount (hist ++ m :: dispatchMessages c m.tool_calls) = k + 1 := by
            have : (m :: dispatchMessages c m.tool_calls) = roundBlock c m := rfl
            rw [this, assistantCount_append, assistantCount_roundBlock c m hrole, hcount]
          have hrec := ih rest (k + 1) f
            (hist ++ m :: dispatchMessages c m.tool_calls)
            (tr ++ Event.modelCall hist toolsList :: dispatchEvents m.tool_calls)
            hdrop2 hcount2 (by simp only [List.length_cons] at hlen; omega)
            (fun x hx => hgood x (List.mem_cons_of_mem m hx))
          rw [hrec]
          have hfuel : f - rest'.length = (f + 1) - (m :: rest').length := by
            simp [List.length_cons]
          rw [hfuel]
          have hmsg : (hist ++ m :: dispatchMessages c m.tool_calls) ++
              (rest'.map (roundBlock c)).flatten =
              hist ++ (((m :: rest').map (roundBlock c)).flatten) := by
            simp [roundBlock]
          have hev : (tr ++ Event.modelCall hist toolsList :: dispatchEvents m.tool_calls) ++
              scriptEvents c (hist ++ m :: dispatchMessages c m.tool_calls) rest' =
              tr ++ scriptEvents c hist (m :: rest') := by
            simp [scriptEvents, roundBlock]
          rw [hmsg, hev]

/-- A name that is not in the dispatch chain falls to the `else` branch and
yields the `Unknown tool` payload. -/
lemma executeTool_unknown (c : Collab) (name : String) (args : ArgMap)
    (h : name ∉ registryNames) :
    executeTool c name args = errObj ("Unknown tool: " ++ name) := by
  simp only [registryNames, List.mem_cons, List.not_mem_nil, or_false] at h
  push_neg at h
  obtain ⟨h1, h2, h3, h4, h5, h6⟩ := h
  simp [executeTool, collabResult, h1, h2, h3, h4, h5, h6]

/-! ### Claims -/

/-- C1: for every model that responds with at least one tool invocation
request on every round, `chat` performs exactly 5 rounds (5 model calls,
each followed by its dispatches), returns the fixed sentinel string, and
never performs a 6th model call. -/
theorem chat_round_budget_exhaustion (lm : LM) (c : Collab) (a : SupersetAgent)
    (q : String)
    (hlm : ∀ h, ∃ m, lm h toolsList = Except.ok m ∧ m.tool_calls ≠ []) :
    (a.chat lm c q).1 = sentinel ∧
    countModelCalls (a.chat lm c q).2.2 = 5 := by
  obtain ⟨hist2, tr2, heq, hcount⟩ :=
    chatLoop_exhausts lm c hlm 5 (a.history ++ [userMsg q]) []
  constructor
  · show (chatLoop lm c 5 (a.history ++ [userMsg q]) []).1 = sentinel
    rw [heq]
  · show countModelCalls (chatLoop lm c 5 (a.history ++ [userMsg q]) []).2.2 = 5
    rw [heq]
    simpa using hcount

/-- Witness for C1 at a concrete always-tool-calling model. -/
theorem chat_round_budget_exhaustion_witness :
    (SupersetAgent.init.chat alwaysToolLM okCollab "list databases").1 = sentinel ∧
    countModelCalls (SupersetAgent.init.chat alwaysToolLM okCollab "list databases").2.2 = 5 :=
  chat_round_budget_exhaustion alwaysToolLM okCollab SupersetAgent.init "list databases"
    (fun _ => ⟨_, rfl, by simp [alwaysToolLM]⟩)

/-- C2: dispatch of an operation name outside the registry of six returns
the structured payload `{"error": "Unknown tool: <name>"}` carrying that
name; `executeTool` is a total function, so no exception reaches its
caller. -/
theorem executeTool_unknown_name (c : Collab) (name : String) (args : ArgMap)
    (h : name ∉ registryNames) :
    executeTool c name args = errObj ("Unknown tool: " ++ name) :=
  executeTool_unknown c name args h

/-- Witness for C2 at the spec's own typo example. -/
theorem executeTool_unknown_name_witness :
    executeTool okCollab "superset_database_lsit" [] =
      errObj "Unknown tool: superset_database_lsit" :=
  executeTool_unknown_name okCollab "superset_database_lsit" [] (by decide)

/-- C4: when the model chat call itself raises, the loop returns the
transport-error text immediately: the history is left as it was, the trace
gains only that one model call (no dispatch, no further rounds), and the
error text is the final answer. -/
theorem chat_transport_failure (lm : LM) (c : Collab) (fuel : Nat)
    (hist : List Message) (tr : List Event) (e : String)
    (hm : lm hist toolsList = Except.error e) :
    chatLoop lm c (fuel + 1) hist tr =
      ("Error communicating with Ollama: " ++ e, hist,
        tr ++ [Event.modelCall hist toolsList]) :=
  chatLoop_error lm c fuel hist tr e hm

/-- Witness for C4 at a concrete failing model. -/
theorem chat_transport_failure_witness :
    chatLoop failLM okCollab 5 [systemMessage, userMsg "hi"] [] =
      ("Error communicating with Ollama: connection refused",
        [systemMessage, userMsg "hi"],
        [Event.modelCall [systemMessage, userMsg "hi"] toolsList]) :=
  chat_transport_failure failLM okCollab 4 [systemMessage, userMsg "hi"] []
    "connection refused" rfl

/-- C5: when the first model response carries no tool invocation requests,
`chat` returns that response's text content unchanged, the history gains
only the user and assistant messages, and the trace holds a single model
call and no dispatch. -/
theorem chat_first_response_plain (lm : LM) (c : Collab) (a : SupersetAgent)
    (q : String) (m : Message)
    (hm : lm (a.history ++ [userMsg q]) toolsList = Except.ok m)
    (hcalls : m.tool_calls = []) :
    a.chat lm c q =
      (m.content, { history := a.history ++ [userMsg q, m] },
        [Event.modelCall (a.history ++ [userMsg q]) toolsList]) := by
  have hstep := chatLoop_plain lm c 4 (a.history ++ [userMsg q]) [] m hm hcalls
  simp only [SupersetAgent.chat]
  rw [show (5 : Nat) = 4 + 1 from rfl, hstep]
  simp

/-- Witness for C5 at a concrete plain-text model. -/
theorem chat_first_response_plain_witness :
    SupersetAgent.init.chat plainLM okCollab "list databases" =
      ("Found 1 database: examples",
        { history := SupersetAgent.init.history ++
            [userMsg "list databases",
              { role := Role.assistant, content := "Found 1 database: examples" }] },
        [Event.modelCall (SupersetAgent.init.history ++ [userMsg "list databases"]) toolsList]) :=
  chat_first_response_plain plainLM okCollab SupersetAgent.init "list databases"
    { role := Role.assistant, content := "Found 1 database: examples" } rfl rfl

/-- C3: when a recognized operation's collaborator call raises, the
exception is caught and converted to the payload `{"error": str(e)}`, the
round still completes (the loop proceeds to the next round), and the
serialized error payload is the content of the tool-role message appended
for that call. -/
theorem chat_collaborator_raise (lm : LM) (c : Collab) (fuel : Nat)
    (hist : List Message) (tr : List Event) (m : Message) (tc : ToolCall)
    (e : String)
    (hm : lm hist toolsList = Except.ok m)
    (hcalls : m.tool_calls = [tc])
    (hraise : collabResult c tc.name tc.arguments = Except.error e) :
    executeTool c tc.name tc.arguments = errObj e ∧
    chatLoop lm c (fuel + 1) hist tr =
      chatLoop lm c fuel
        (hist ++ [m, { role := Role.tool, content := dumps (errObj e),
                       name := some tc.name }])
        (tr ++ [Event.modelCall hist toolsList,
                Event.dispatch tc.name tc.arguments]) := by
  have hexec : executeTool c tc.name tc.arguments = errObj e := by
    simp [executeTool, hraise]
  refine ⟨hexec, ?_⟩
  rw [chatLoop_tools lm c fuel hist tr m hm (by simp [hcalls])]
  simp [hcalls, dispatchMessages, dispatchEvents, toolMessage, hexec]

/-- Witness for C3: a raising schema-listing collaborator inside one round
of the loop. -/
theorem chat_collaborator_raise_witness :
    executeTool (raisingCollab "boom") "superset_database_schemas"
        [("database_id", JsonVal.num 1)] = errObj "boom" ∧
    chatLoop schemaCallLM (raisingCollab "boom") 5 [systemMessage, userMsg "q"] [] =
      chatLoop schemaCallLM (raisingCollab "boom") 4
        ([systemMessage, userMsg "q"] ++
          [schemaCallMsg,
            { role := Role.tool, content := dumps (errObj "boom"),
              name := some "superset_database_schemas" }])
        ([] ++ [Event.modelCall [systemMessage, userMsg "q"] toolsList,
                Event.dispatch "superset_database_schemas"
                  [("database_id", JsonVal.num 1)]]) := by
  have h := chat_collaborator_raise schemaCallLM (raisingCollab "boom") 4
    [systemMessage, userMsg "q"] [] schemaCallMsg
    { name := "superset_database_schemas",
      arguments := [("database_id", JsonVal.num 1)] }
    "boom" rfl rfl rfl
  exact h

/-- C6: a run of N rounds (N ≤ 5) in which the model requests tool calls on
every round extends the conversation by, per round and in order, the
assistant message followed by one tool-role message per requested call in
the model's call order, each tagged with the originating operation name in
its `name` field; the trace interleaves one model call with the dispatches
of that round, sequentially. -/
theorem chat_conversation_order (script : List Message) (c : Collab)
    (a : SupersetAgent) (q : String)
    (hgood : ∀ m ∈ script, m.role = Role.assistant ∧ m.tool_calls ≠ [])
    (hstart : assistantCount a.history = 0)
    (hlen : script.length ≤ 5) :
    chatLoop (scriptedLM script) c 5 (a.history ++ [userMsg q]) [] =
      chatLoop (scriptedLM script) c (5 - script.length)
        (a.history ++ userMsg q ::
          (script.map (fun m =>
            m :: m.tool_calls.map (fun tc =>
              { role := Role.tool,
                content := dumps (executeTool c tc.name tc.arguments),
                name := some tc.name }))).flatten)
        (scriptEvents c (a.history ++ [userMsg q]) script) := by
  have h0 : assistantCount (a.history ++ [userMsg q]) = 0 := by
    rw [assistantCount_append, hstart]
    rfl
  have h := chatLoop_scripted script c script [] 0 5 (a.history ++ [userMsg q]) []
    (by simp) h0 hlen hgood
  have hshape : (script.map (roundBlock c)).flatten =
      (script.map (fun m =>
        m :: m.tool_calls.map (fun tc =>
          { role := Role.tool,
            content := dumps (executeTool c tc.name tc.arguments),
            name := some tc.name }))).flatten := rfl
  rw [h, hshape]
  simp

/-- Witness for C6: a two-round scripted run on a fresh agent. -/
theorem chat_conversation_order_witness :
    chatLoop (scriptedLM [schemaCallMsg, schemaCallMsg]) okCollab 5
        (SupersetAgent.init.history ++ [userMsg "q"]) [] =
      chatLoop (scriptedLM [schemaCallMsg, schemaCallMsg]) okCollab
        (5 - [schemaCallMsg, schemaCallMsg].length)
        (SupersetAgent.init.history ++ userMsg "q" ::
          ([schemaCallMsg, schemaCallMsg].map (fun m =>
            m :: m.tool_calls.map (fun tc =>
              { role := Role.tool,
                content := dumps (executeTool okCollab tc.name tc.arguments),
                name := some tc.name }))).flatten)
        (scriptEvents okCollab (SupersetAgent.init.history ++ [userMsg "q"])
          [schemaCallMsg, schemaCallMsg]) :=
  chat_conversation_order [schemaCallMsg, schemaCallMsg] okCollab
    SupersetAgent.init "q" (by decide) rfl (by decide)

/-- C7: the tool-schema list handed to the model is the same static list on
every round of every run; its operation names are exactly the names the
dispatch chain recognizes: any name outside them falls to the unknown-tool
branch, and each of them reaches its collaborator call. -/
theorem schema_set_matches_dispatch_set :
    (∀ (lm : LM) (c : Collab) (a : SupersetAgent) (q : String)
        (h : List Message) (t : List ToolSchema),
        Event.modelCall h t ∈ (a.chat lm c q).2.2 → t = toolsList) ∧
    (∀ n, n ∈ toolsList.map ToolSchema.name ↔ n ∈ registryNames) ∧
    (∀ (c : Collab) (name : String) (args : ArgMap), name ∉ registryNames →
        executeTool c name args = errObj ("Unknown tool: " ++ name)) ∧
    (∀ (name : String), name ∈ registryNames → ∀ (args : ArgMap),
        executeTool okCollab name args = JsonVal.str "ok") := by
  refine ⟨?_, ?_, ?_, ?_⟩
  · intro lm c a q h t hmem
    have hmem2 : Event.modelCall h t ∈
        (chatLoop lm c 5 (a.history ++ [userMsg q]) []).2.2 := hmem
    rcases chatLoop_modelCall_tools lm c 5 (a.history ++ [userMsg q]) [] h t hmem2 with
      habs | heq
    · exact absurd habs (List.not_mem_nil _)
    · exact heq
  · intro n
    simp [toolsList, registryNames]
    tauto
  · exact executeTool_unknown
  · intro name hname args
    simp only [registryNames, List.mem_cons, List.not_mem_nil, or_false] at hname
    rcases hname with rfl | rfl | rfl | rfl | rfl | rfl <;> rfl

/-- Witness for C7: the trace membership, registry membership and
non-membership hypotheses discharged at concrete inputs. -/
theorem schema_set_matches_dispatch_set_witness :
    toolsList = toolsList ∧
    ("superset_chart_create" ∈ toolsList.map ToolSchema.name ↔
      "superset_chart_create" ∈ registryNames) ∧
    executeTool okCollab "superset_database_lsit2" [] =
      errObj "Unknown tool: superset_database_lsit2" ∧
    executeTool okCollab "superset_chart_create" [] = JsonVal.str "ok" :=
  ⟨schema_set_matches_dispatch_set.1 plainLM okCollab SupersetAgent.init "q"
      (SupersetAgent.init.history ++ [userMsg "q"]) toolsList (List.Mem.head _),
    schema_set_matches_dispatch_set.2.1 "superset_chart_create",
    schema_set_matches_dispatch_set.2.2.1 okCollab "superset_database_lsit2" []
      (by decide),
    schema_set_matches_dispatch_set.2.2.2 "superset_chart_create" (by decide) []⟩

/-- C8 counterexample: dispatch does not unpack the argument mapping for
every recognized operation.  For `superset_database_list` the mapping is
discarded (`await superset_database_list(self.ctx)`), so a spurious
argument succeeds where keyword unpacking into the no-argument collaborator
would raise and be converted to an error payload. -/
theorem dispatch_kwargs_counterexample :
    ¬ ∀ (c : Collab) (name : String) (args : ArgMap),
        name ∈ registryNames → executeTool c name args = executeToolSpec c name args := by
  intro h
  have h2 := h okCollab "superset_database_list" [("foo", JsonVal.str "1")]
    (List.Mem.head _)
  exact absurd h2 (by decide)

/-- C8 (amended): for the four parameterized operations the argument
mapping is passed through to the collaborator exactly as the spec
describes, with no argument-shape validation at this layer; for the two
zero-argument operations (`superset_database_list`,
`superset_dataset_list`) the mapping is discarded and the collaborator is
invoked with no arguments, so spurious arguments are silently ignored. -/
theorem dispatch_args_passthrough (c : Collab) (name : String) (args : ArgMap)
    (h : name ∈ registryNames) :
    executeTool c name args =
      if name = "superset_database_list" ∨ name = "superset_dataset_list" then
        executeTool c name []
      else executeToolSpec c name args := by
  simp only [registryNames, List.mem_cons, List.not_mem_nil, or_false] at h
  rcases h with rfl | rfl | rfl | rfl | rfl | rfl <;>
    simp [executeTool, executeToolSpec, collabResult, callNoArgs]

/-- Witness for the amended C8 at concrete operations and arguments. -/
theorem dispatch_args_passthrough_witness :
    (executeTool okCollab "superset_database_schemas" [("database_id", JsonVal.num 1)] =
      if ("superset_database_schemas" = "superset_database_list" ∨
          "superset_database_schemas" = "superset_dataset_list") then
        executeTool okCollab "superset_database_schemas" []
      else executeToolSpec okCollab "superset_database_schemas"
        [("database_id", JsonVal.num 1)]) ∧
    (executeTool okCollab "superset_dataset_list" [("foo", JsonVal.str "1")] =
      if ("superset_dataset_list" = "superset_database_list" ∨
          "superset_dataset_list" = "superset_dataset_list") then
        executeTool okCollab "superset_dataset_list" []
      else executeToolSpec okCollab "superset_dataset_list"
        [("foo", JsonVal.str "1")]) :=
  ⟨dispatch_args_passthrough okCollab "superset_database_schemas"
      [("database_id", JsonVal.num 1)] (by decide),
    dispatch_args_passthrough okCollab "superset_dataset_list"
      [("foo", JsonVal.str "1")] (by decide)⟩

/-- C9: every dispatched result — success or error — becomes the content of
its tool-role message as the text produced by `json.dumps(_, default=str)`,
and a value outside the JSON fragment is coerced to its string form during
serialization, so every tool-role message carries renderable text. -/
theorem tool_result_serialized :
    (∀ (name : String) (result : JsonVal),
        (toolMessage name result).content = dumps result) ∧
    (∀ s, dumps (JsonVal.other s) = dumps (JsonVal.str s)) ∧
    (∀ (c : Collab) (calls : List ToolCall) (msg : Message),
        msg ∈ dispatchMessages c calls →
        msg.role = Role.tool ∧
        ∃ tc, tc ∈ calls ∧
          msg.content = dumps (executeTool c tc.name tc.arguments)) := by
  refine ⟨fun _ _ => rfl, fun _ => rfl, ?_⟩
  intro c calls msg hmem
  simp only [dispatchMessages, List.mem_map] at hmem
  obtain ⟨tc, htc, rfl⟩ := hmem
  exact ⟨rfl, tc, htc, rfl⟩

/-- Witness for C9 at a concrete dispatched call and a concrete non-JSON
value. -/
theorem tool_result_serialized_witness :
    (toolMessage "superset_database_list" (JsonVal.str "ok")).content =
      dumps (JsonVal.str "ok") ∧
    dumps (JsonVal.other "http://superset/chart/1") =
      dumps (JsonVal.str "http://superset/chart/1") ∧
    ((toolMessage "superset_database_list"
        (executeTool okCollab "superset_database_list" [])).role = Role.tool ∧
      ∃ tc, tc ∈ [ToolCall.mk "superset_database_list" []] ∧
        (toolMessage "superset_database_list"
          (executeTool okCollab "superset_database_list" [])).content =
          dumps (executeTool okCollab tc.name tc.arguments)) :=
  ⟨tool_result_serialized.1 "superset_database_list" (JsonVal.str "ok"),
    tool_result_serialized.2.1 "http://superset/chart/1",
    tool_result_serialized.2.2 okCollab [ToolCall.mk "superset_database_list" []]
      (toolMessage "superset_database_list"
        (executeTool okCollab "superset_database_list" []))
      (List.Mem.head _)⟩

/-- C10: the history starts as the single system-prompt message and is only
ever appended to: every `chat` call leaves the prior history as a prefix
followed by that call's user message (also when the run ends in a
model-transport failure, which leaves the user message behind), and every
call — hence also a second call on the same instance — passes the entire
accumulated history plus the new user message to the model on its first
round. -/
theorem history_append_only :
    SupersetAgent.init.history = [systemMessage] ∧
    (∀ (a : SupersetAgent) (lm : LM) (c : Collab) (q : String),
        ∃ ext, ((a.chat lm c q).2.1).history = a.history ++ userMsg q :: ext) ∧
    (∀ (a : SupersetAgent) (lm : LM) (c : Collab) (q : String),
        ∃ rest, (a.chat lm c q).2.2 =
          Event.modelCall (a.history ++ [userMsg q]) toolsList :: rest) ∧
    (∀ (a : SupersetAgent) (c : Collab) (q e : String) (lm : LM),
        (∀ h t, lm h t = Except.error e) →
        ((a.chat lm c q).2.1).history = a.history ++ [userMsg q]) := by
  refine ⟨rfl, ?_, ?_, ?_⟩
  · intro a lm c q
    obtain ⟨ans, he, te, heq⟩ := chatLoop_extends lm c 5 (a.history ++ [userMsg q]) []
    refine ⟨he, ?_⟩
    show (chatLoop lm c 5 (a.history ++ [userMsg q]) []).2.1 = _
    rw [heq]
    simp
  · intro a lm c q
    obtain ⟨rest, heq⟩ := chatLoop_first_event lm c 4 (a.history ++ [userMsg q]) []
    refine ⟨rest, ?_⟩
    show (chatLoop lm c 5 (a.history ++ [userMsg q]) []).2.2 = _
    rw [show (5 : Nat) = 4 + 1 from rfl, heq]
    simp
  · intro a c q e lm hlm
    show (chatLoop lm c 5 (a.history ++ [userMsg q]) []).2.1 = _
    rw [show (5 : Nat) = 4 + 1 from rfl,
      chatLoop_error lm c 4 (a.history ++ [userMsg q]) [] e (hlm _ _)]

/-- Witness for C10: a transport-failing run leaves the user message in the
history. -/
theorem history_append_only_witness :
    ((SupersetAgent.init.chat failLM okCollab "hi").2.1).history =
      SupersetAgent.init.history ++ [userMsg "hi"] :=
  history_append_only.2.2.2 SupersetAgent.init okCollab "hi" "connection refused"
    failLM (fun _ _ => rfl)
